import Mathlib

/-!
Verification of the event-registration consistency logic of the
community-events backend.

Two variants of the registration service live in the repository:

* the simple variant: the plain-SQL `Event` model class
  (`registerUser`, `unregisterUser`, `isUserRegistered`, `getAttendees`)
  over the `events` / `event_attendees` tables of `setup.sql`, together
  with the thin event controller that maps its
  `\x7b success, message \x7d` results to HTTP responses;

* the richer variant: the Sequelize-based `attendeeController`
  (`registerForEvent`, `updateAttendanceStatus`, `checkInAttendee`,
  `deleteAttendance`) over the `Attendee` model that carries a status
  enum (pending / confirmed / declined / no-show).

Both are embedded below as pure state-passing functions over explicit
store states.  Each SQL statement of the source is one helper; fallible
store access is modelled with an explicit fault-injection parameter
(`failAt`), mirroring that `db.query` may throw and the model methods
catch.  A fine-grained step machine (`regStep` / `runSched`) exposes the
suspension points of `registerUser` (one per SQL query) so that claims
about interleavings of two concurrent register calls can be settled.
-/

/-! ## Simple variant: store state -/

/-- A row of the `events` table (only the columns `registerUser` reads). -/
structure SEvent where
  id : Nat
  capacity : Nat
  deriving Repr, DecidableEq

/-- A row of the `event_attendees` junction table. -/
structure SRow where
  eventId : Nat
  userId : Nat
  registeredAt : Nat
  deriving Repr, DecidableEq

/-- A row of the `users` table (the projection `getAttendees` selects). -/
structure SUser where
  id : Nat
  displayName : String
  deriving Repr, DecidableEq

/-- The relational store of the simple variant.  `clock` drives the
`registered_at` default timestamp (`NOW()`). -/
structure SDB where
  events : List SEvent
  attendees : List SRow
  users : List SUser
  clock : Nat
  deriving Repr, DecidableEq

/-- The result object the simple model methods return. -/
structure RegResult where
  success : Bool
  message : String
  deriving Repr, DecidableEq

/-! ## Simple variant: the individual SQL statements -/

/-- `SELECT * FROM event_attendees WHERE event_id = $1 AND user_id = $2`. -/
def findAttendeeRows (db : SDB) (e u : Nat) : List SRow :=
  db.attendees.filter (fun r => r.eventId == e && r.userId == u)

/-- `SELECT capacity FROM events WHERE id = $1`. -/
def findEventCapacity (db : SDB) (e : Nat) : List Nat :=
  (db.events.filter (fun ev => ev.id == e)).map SEvent.capacity

/-- `SELECT COUNT(*) FROM event_attendees WHERE event_id = $1`. -/
def countAttendees (db : SDB) (e : Nat) : Nat :=
  (db.attendees.filter (fun r => r.eventId == e)).length

/-- `INSERT INTO event_attendees (event_id, user_id) VALUES ($1, $2)`;
`registered_at` defaults to `NOW()`. -/
def insertAttendee (db : SDB) (e u : Nat) : SDB :=
  { db with attendees := db.attendees ++ [⟨e, u, db.clock⟩], clock := db.clock + 1 }

/-- `DELETE FROM event_attendees WHERE event_id = $1 AND user_id = $2
RETURNING *`: the deleted rows together with the store afterwards. -/
def deleteAttendeeRows (db : SDB) (e u : Nat) : List SRow × SDB :=
  (findAttendeeRows db e u,
   { db with attendees := db.attendees.filter (fun r => !(r.eventId == e && r.userId == u)) })

/-! ## Simple variant: model methods

`Event.registerUser` runs four queries in order: (0) the duplicate
check, (1) the capacity fetch, (2) the attendee count, (3) the insert.
`failAt = some k` makes query `k` throw; the catch block of the source
turns any such throw into the generic failure result and leaves the
store untouched. -/

/-- `Event.registerUser` with fault injection on its four queries. -/
def registerUserF (failAt : Option Nat) (db : SDB) (e u : Nat) : RegResult × SDB :=
  if failAt = some 0 then (⟨false, "Failed to register for event"⟩, db)
  else if (findAttendeeRows db e u).length > 0 then
    (⟨false, "User already registered for this event"⟩, db)
  else if failAt = some 1 then (⟨false, "Failed to register for event"⟩, db)
  else match findEventCapacity db e with
  | [] => (⟨false, "Event not found"⟩, db)
  | cap :: _ =>
    if failAt = some 2 then (⟨false, "Failed to register for event"⟩, db)
    else if cap > 0 && decide (countAttendees db e ≥ cap) then
      (⟨false, "Event is at capacity"⟩, db)
    else if failAt = some 3 then (⟨false, "Failed to register for event"⟩, db)
    else (⟨true, "User registered successfully"⟩, insertAttendee db e u)

/-- `Event.registerUser` on a store that raises no errors. -/
def registerUser (db : SDB) (e u : Nat) : RegResult × SDB :=
  registerUserF none db e u

/-- `Event.unregisterUser` with fault injection on its single query. -/
def unregisterUserF (failAt : Option Nat) (db : SDB) (e u : Nat) : RegResult × SDB :=
  if failAt = some 0 then (⟨false, "Failed to unregister from event"⟩, db)
  else if (deleteAttendeeRows db e u).1.length = 0 then
    (⟨false, "User not registered for this event"⟩, (deleteAttendeeRows db e u).2)
  else (⟨true, "User unregistered successfully"⟩, (deleteAttendeeRows db e u).2)

/-- `Event.unregisterUser` on a store that raises no errors. -/
def unregisterUser (db : SDB) (e u : Nat) : RegResult × SDB :=
  unregisterUserF none db e u

/-- `Event.isUserRegistered`. -/
def isUserRegistered (db : SDB) (e u : Nat) : Bool :=
  (findAttendeeRows db e u).length > 0

/-- One row of the `getAttendees` projection. -/
structure AttendeeView where
  id : Nat
  displayName : String
  registeredAt : Nat
  deriving Repr, DecidableEq

/-- `Event.getAttendees`: join `users` with `event_attendees` for the
event, `ORDER BY ea.registered_at`. -/
def getAttendees (db : SDB) (e : Nat) : List AttendeeView :=
  let joined := db.users.flatMap (fun usr =>
    (db.attendees.filter (fun r => r.userId == usr.id && r.eventId == e)).map
      (fun r => AttendeeView.mk usr.id usr.displayName r.registeredAt))
  joined.mergeSort (fun a b => a.registeredAt ≤ b.registeredAt)

/-! ## Simple variant: HTTP controller (event controller) -/

/-- A controller response: HTTP status plus body message. -/
structure HttpResp where
  status : Nat
  message : String
  deriving Repr, DecidableEq

/-- The event controller around `Event.registerUser`: failure results
are sent with status 400, success with the default 200. -/
def registerForEventCtrl (db : SDB) (e u : Nat) : HttpResp × SDB :=
  let res := registerUser db e u
  if res.1.success then (⟨200, res.1.message⟩, res.2) else (⟨400, res.1.message⟩, res.2)

/-- The event controller around `Event.unregisterUser`: failure results
are sent with status 400, success with the default 200. -/
def unregisterFromEventCtrl (db : SDB) (e u : Nat) : HttpResp × SDB :=
  let res := unregisterUser db e u
  if res.1.success then (⟨200, res.1.message⟩, res.2) else (⟨400, res.1.message⟩, res.2)

/-! ## Simple variant: invariants -/

/-- Capacity invariant of the simple variant: whenever an event has
capacity greater than zero, the number of its attendee rows does not
exceed it. -/
def capacityInvS (db : SDB) : Bool :=
  db.events.all (fun ev => ev.capacity == 0 || decide (countAttendees db ev.id ≤ ev.capacity))

/-- Pair uniqueness: no two attendee rows share an (event, user) pair —
the `PRIMARY KEY (event_id, user_id)` of `setup.sql`. -/
def pairNodupS (db : SDB) : Prop :=
  (db.attendees.map (fun r => (r.eventId, r.userId))).Nodup

instance (db : SDB) : Decidable (pairNodupS db) := by
  unfold pairNodupS; infer_instance

/-- The `events.id` primary key: event ids are pairwise distinct. -/
def eventsNodupS (db : SDB) : Prop :=
  (db.events.map SEvent.id).Nodup

instance (db : SDB) : Decidable (eventsNodupS db) := by
  unfold eventsNodupS; infer_instance

/-! ## Richer variant: data model -/

/-- The `Attendee.status` enum of the Sequelize model. -/
inductive AStatus
  | pending
  | confirmed
  | declined
  | noShow
  deriving Repr, DecidableEq

/-- A row of the Sequelize `Attendee` model. -/
structure RAttendee where
  id : Nat
  userId : Nat
  eventId : Nat
  status : AStatus
  checkedInAt : Option Nat
  notes : Option String
  deriving Repr, DecidableEq

/-- The columns of the Sequelize `Event` model that the attendee
controller reads.  `maxAttendees = 0` stands for both SQL NULL and 0:
the guard `event.maxAttendees && ...` treats both as falsy. -/
structure REvent where
  id : Nat
  organizerId : Nat
  maxAttendees : Nat
  startDate : Nat
  deriving Repr, DecidableEq

/-- The store of the richer variant.  `nextId` generates surrogate
attendee ids; `now` is the current time (`new Date()`). -/
structure RDB where
  events : List REvent
  attendees : List RAttendee
  nextId : Nat
  now : Nat
  deriving Repr, DecidableEq

/-- The error classes thrown by the attendee controller, plus
`internal` for unexpected errors reaching the catch block. -/
inductive RError
  | notFound (msg : String)
  | validationErr (msg : String)
  | forbidden (msg : String)
  | internal (msg : String)
  deriving Repr, DecidableEq

/-- Outcome of a controller call: a 201 created / 200 ok response
carrying the attendee id, or an error handed to `next(error)`. -/
inductive RResponse
  | created (attendeeId : Nat)
  | ok (attendeeId : Nat)
  | fail (e : RError)
  deriving Repr, DecidableEq

/-- The authenticated actor (`req.user`). -/
structure Actor where
  id : Nat
  isAdmin : Bool
  deriving Repr, DecidableEq

/-- `Event.findByPk` (richer variant). -/
def findREvent (db : RDB) (e : Nat) : Option REvent :=
  db.events.find? (fun ev => ev.id == e)

/-- `Attendee.findByPk`. -/
def findRByPk (db : RDB) (i : Nat) : Option RAttendee :=
  db.attendees.find? (fun r => r.id == i)

/-- `Attendee.findOne(\x7bwhere: \x7buserId, eventId\x7d\x7d)`. -/
def findPair (db : RDB) (e u : Nat) : Option RAttendee :=
  db.attendees.find? (fun r => r.userId == u && r.eventId == e)

/-- `Attendee.count(\x7bwhere: \x7beventId, status: confirmed\x7d\x7d)`. -/
def confirmedCount (db : RDB) (e : Nat) : Nat :=
  (db.attendees.filter (fun r => r.eventId == e && r.status == AStatus.confirmed)).length

/-! ## Richer variant: controller operations

`registerForEvent` runs inside one transaction: every throw before the
commit rolls the store back to its initial state.  The confirmation
email is awaited after the commit but still inside the try block, so a
throw from `queueEmail` reaches the same catch; `enqueueOk = false`
injects that throw.  The commit has already happened, so the store keeps
the inserted row while the caller receives an error. -/

/-- `Attendee.create(\x7buserId, eventId, status: confirmed, notes\x7d)`
followed by the commit: the insert that `registerForEvent` performs. -/
def insertRAttendee (db : RDB) (eventId userId : Nat) (notes : Option String) : RDB :=
  { db with
    attendees := db.attendees ++ [⟨db.nextId, userId, eventId, AStatus.confirmed, none, notes⟩],
    nextId := db.nextId + 1 }

/-- `registerForEvent` of the attendee controller. -/
def registerForEvent (db : RDB) (eventId userId : Nat) (notes : Option String)
    (enqueueOk : Bool) : RResponse × RDB :=
  match findREvent db eventId with
  | none => (.fail (.notFound "Event not found"), db)
  | some ev =>
    if ev.startDate < db.now then
      (.fail (.validationErr "Cannot register for past events"), db)
    else if ev.maxAttendees != 0 && decide (confirmedCount db eventId ≥ ev.maxAttendees) then
      (.fail (.validationErr "Event is at full capacity"), db)
    else match findPair db eventId userId with
      | some _ => (.fail (.validationErr "You are already registered for this event"), db)
      | none =>
        if enqueueOk then (.created db.nextId, insertRAttendee db eventId userId notes)
        else (.fail (.internal "queueEmail failed"), insertRAttendee db eventId userId notes)

/-- `updateAttendanceStatus` of the attendee controller.  The foreign
key guarantees the event row of an attendee exists; a missing event is
mapped to `internal`. -/
def updateAttendanceStatus (db : RDB) (attendeeId : Nat) (status : AStatus)
    (notes : Option String) (actor : Actor) : RResponse × RDB :=
  match findRByPk db attendeeId with
  | none => (.fail (.notFound "Attendance record not found"), db)
  | some att =>
    match findREvent db att.eventId with
    | none => (.fail (.internal "missing event row"), db)
    | some ev =>
      let isAttendee := att.userId == actor.id
      let isOrganizer := ev.organizerId == actor.id
      let isAdmin := actor.isAdmin
      if !(isAttendee || isOrganizer || isAdmin) then
        (.fail (.forbidden "You are not authorized to update this attendance record"), db)
      else if isAttendee && !isOrganizer && !isAdmin && status != AStatus.declined then
        (.fail (.forbidden "You can only cancel your attendance"), db)
      else
        let newCheckedIn :=
          if status == AStatus.confirmed && (isOrganizer || isAdmin) && att.checkedInAt == none
          then some db.now else att.checkedInAt
        let newNotes := match notes with | some n => some n | none => att.notes
        let att2 : RAttendee := { att with status := status, notes := newNotes, checkedInAt := newCheckedIn }
        (.ok att2.id, { db with attendees := db.attendees.map (fun r => if r.id == attendeeId then att2 else r) })

/-- `checkInAttendee` of the attendee controller. -/
def checkInAttendee (db : RDB) (attendeeId : Nat) (actor : Actor) : RResponse × RDB :=
  match findRByPk db attendeeId with
  | none => (.fail (.notFound "Attendance record not found"), db)
  | some att =>
    match findREvent db att.eventId with
    | none => (.fail (.internal "missing event row"), db)
    | some ev =>
      if !(ev.organizerId == actor.id || actor.isAdmin) then
        (.fail (.forbidden "You are not authorized to check in attendees"), db)
      else
        let att2 : RAttendee := { att with status := AStatus.confirmed, checkedInAt := some db.now }
        (.ok att2.id, { db with attendees := db.attendees.map (fun r => if r.id == attendeeId then att2 else r) })

/-- `deleteAttendance` of the attendee controller. -/
def deleteAttendance (db : RDB) (attendeeId : Nat) (actor : Actor) : RResponse × RDB :=
  match findRByPk db attendeeId with
  | none => (.fail (.notFound "Attendance record not found"), db)
  | some att =>
    match findREvent db att.eventId with
    | none => (.fail (.internal "missing event row"), db)
    | some ev =>
      if !(att.userId == actor.id || ev.organizerId == actor.id || actor.isAdmin) then
        (.fail (.forbidden "You are not authorized to delete this attendance record"), db)
      else
        (.ok att.id, { db with attendees := db.attendees.filter (fun r => !(r.id == attendeeId)) })

/-! ## Richer variant: invariants -/

/-- Capacity invariant of the richer variant: whenever an event has a
nonzero attendee limit, its confirmed rows do not exceed it. -/
def capacityInvR (db : RDB) : Bool :=
  db.events.all (fun ev => ev.maxAttendees == 0 || decide (confirmedCount db ev.id ≤ ev.maxAttendees))

/-- Pair uniqueness in the richer variant: the unique index on
(userId, eventId) of the `Attendee` model. -/
def pairNodupR (db : RDB) : Prop :=
  (db.attendees.map (fun r => (r.eventId, r.userId))).Nodup

instance (db : RDB) : Decidable (pairNodupR db) := by
  unfold pairNodupR; infer_instance

/-- The `Event.id` primary key of the richer variant. -/
def eventsNodupR (db : RDB) : Prop :=
  (db.events.map REvent.id).Nodup

instance (db : RDB) : Decidable (eventsNodupR db) := by
  unfold eventsNodupR; infer_instance

/-! ## Fine-grained step machine for concurrent register calls

`registerUser` suspends at each `await db.query(...)`; between two
queries another request may run.  One in-flight register call is a
thread: a program counter over the four queries plus the values it has
read so far.  A schedule is a list of booleans: `false` steps the first
thread, `true` the second. -/

/-- The state of one in-flight `registerUser` call. -/
structure ThreadState where
  pc : Nat
  capMemo : Nat
  countMemo : Nat
  result : Option RegResult
  deriving Repr, DecidableEq

/-- The initial thread state. -/
def initThread : ThreadState := ⟨0, 0, 0, none⟩

/-- One atomic step of an in-flight `registerUser eventId userId` call:
executes the next query against the shared store.  The pure tests
between queries run inside the step that consumed their inputs. -/
def regStep (db : SDB) (t : ThreadState) (e u : Nat) : ThreadState × SDB :=
  match t.result with
  | some _ => (t, db)
  | none =>
    match t.pc with
    | 0 =>
      if (findAttendeeRows db e u).length > 0 then
        ({ t with result := some ⟨false, "User already registered for this event"⟩ }, db)
      else ({ t with pc := 1 }, db)
    | 1 =>
      match findEventCapacity db e with
      | [] => ({ t with result := some ⟨false, "Event not found"⟩ }, db)
      | cap :: _ => ({ t with pc := 2, capMemo := cap }, db)
    | 2 => ({ t with pc := 3, countMemo := countAttendees db e }, db)
    | _ =>
      if t.capMemo > 0 && decide (t.countMemo ≥ t.capMemo) then
        ({ t with result := some ⟨false, "Event is at capacity"⟩ }, db)
      else ({ t with result := some ⟨true, "User registered successfully"⟩ }, insertAttendee db e u)

/-- Run two concurrent `registerUser` calls (thread 1 for `u1`, thread 2
for `u2`, same event) under an explicit schedule. -/
def runSched (e u1 u2 : Nat) : List Bool → ThreadState × ThreadState × SDB → ThreadState × ThreadState × SDB
  | [], st => st
  | b :: rest, (t1, t2, db) =>
    if b then
      let s := regStep db t2 e u2
      runSched e u1 u2 rest (t1, s.1, s.2)
    else
      let s := regStep db t1 e u1
      runSched e u1 u2 rest (s.1, t2, s.2)

/-! ## Concrete stores for witnesses and counterexamples -/

/-- Simple store: one event (id 1, capacity 1), no attendees, one user. -/
def dbCap1 : SDB := ⟨[⟨1, 1⟩], [], [⟨7, "Regular User"⟩], 0⟩

/-- Simple store: one event of capacity 0 (unlimited) and three users. -/
def dbCap0 : SDB := ⟨[⟨1, 0⟩], [], [⟨7, "A"⟩, ⟨8, "B"⟩, ⟨9, "C"⟩], 0⟩

/-- Richer store: event 1 (organizer 99, limit 1, starts at 10, now 5)
with user 7 already registered and confirmed — the event is full. -/
def rdbFull : RDB := ⟨[⟨1, 99, 1, 10⟩], [⟨0, 7, 1, AStatus.confirmed, none, none⟩], 1, 5⟩

/-- Richer store: event 1 (organizer 99, limit 1, starts at 10, now 5),
no attendees. -/
def rdbEmpty : RDB := ⟨[⟨1, 99, 1, 10⟩], [], 0, 5⟩

/-! ## Helper lemmas -/

theorem countAttendees_insert (db : SDB) (e u e' : Nat) :
    countAttendees (insertAttendee db e u) e'
      = countAttendees db e' + (if e' = e then 1 else 0) := by
  unfold countAttendees insertAttendee
  simp only [List.filter_append]
  rcases eq_or_ne e' e with h | h
  · subst h; simp
  · have hb : (e == e') = false := by simp [Ne.symm h]
    simp [List.filter, hb, h]

theorem countAttendees_filter_le (db : SDB) (p : SRow → Bool) (e : Nat) :
    countAttendees { db with attendees := db.attendees.filter p } e
      ≤ countAttendees db e := by
  unfold countAttendees
  simpa using List.Sublist.length_le
    (List.Sublist.filter _ (List.filter_sublist db.attendees))

theorem filter_key_single {l : List SEvent} {ev : SEvent}
    (hn : (l.map SEvent.id).Nodup) (hm : ev ∈ l) :
    l.filter (fun x => x.id == ev.id) = [ev] := by
  induction l with
  | nil => cases hm
  | cons a t ih =>
    simp only [List.map_cons, List.nodup_cons] at hn
    rcases List.mem_cons.mp hm with rfl | hmt
    · have ht : t.filter (fun x => x.id == ev.id) = [] := by
        refine List.filter_eq_nil_iff.mpr (fun x hx hpx => hn.1 ?_)
        have hxe : x.id = ev.id := by simpa using hpx
        exact hxe ▸ List.mem_map.mpr ⟨x, hx, rfl⟩
      simp [List.filter_cons, ht]
    · have hne : (a.id == ev.id) = false := by
        refine beq_eq_false_iff_ne.mpr (fun hEq => hn.1 ?_)
        exact hEq ▸ (List.mem_map.mpr ⟨ev, hmt, rfl⟩)
      simp [List.filter_cons, hne, ih hn.2 hmt]

theorem findEventCapacity_eq {db : SDB} {ev : SEvent}
    (hn : eventsNodupS db) (hm : ev ∈ db.events) :
    findEventCapacity db ev.id = [ev.capacity] := by
  unfold findEventCapacity
  rw [filter_key_single hn hm]
  rfl

theorem find_key_single {l : List REvent} {ev : REvent}
    (hn : (l.map REvent.id).Nodup) (hm : ev ∈ l) :
    l.find? (fun x => x.id == ev.id) = some ev := by
  induction l with
  | nil => cases hm
  | cons a t ih =>
    simp only [List.map_cons, List.nodup_cons] at hn
    rcases List.mem_cons.mp hm with rfl | hmt
    · simp [List.find?_cons]
    · have hne : (a.id == ev.id) = false := by
        refine beq_eq_false_iff_ne.mpr (fun hEq => hn.1 ?_)
        exact hEq ▸ (List.mem_map.mpr ⟨ev, hmt, rfl⟩)
      simpa [List.find?_cons, hne] using ih hn.2 hmt

theorem findREvent_eq {db : RDB} {ev : REvent}
    (hn : eventsNodupR db) (hm : ev ∈ db.events) :
    findREvent db ev.id = some ev :=
  find_key_single hn hm

theorem confirmedCount_append (db : RDB) (row : RAttendee) (i e' : Nat) :
    confirmedCount { db with attendees := db.attendees ++ [row], nextId := i } e'
      = confirmedCount db e'
        + (if row.eventId = e' ∧ row.status = AStatus.confirmed then 1 else 0) := by
  unfold confirmedCount
  simp only [List.filter_append, List.length_append]
  congr 1
  by_cases h : row.eventId = e' ∧ row.status = AStatus.confirmed
  · simp [List.filter_cons, h.1, h.2, h]
  · have : (row.eventId == e' && row.status == AStatus.confirmed) = false := by
      rcases not_and_or.mp h with h1 | h1 <;> simp [h1]
    simp [List.filter_cons, this, h]

theorem confirmedCount_filter_le (db : RDB) (p : RAttendee → Bool) (e : Nat) :
    confirmedCount { db with attendees := db.attendees.filter p } e
      ≤ confirmedCount db e := by
  unfold confirmedCount
  simpa using List.Sublist.length_le
    (List.Sublist.filter _ (List.filter_sublist db.attendees))

theorem findAttendeeRows_insert (db : SDB) (e u e' u' : Nat) :
    findAttendeeRows (insertAttendee db e u) e' u'
      = findAttendeeRows db e' u'
        ++ (if e = e' ∧ u = u' then [⟨e, u, db.clock⟩] else []) := by
  unfold findAttendeeRows insertAttendee
  simp only [List.filter_append]
  congr 1
  by_cases h : e = e' ∧ u = u'
  · simp [List.filter_cons, h.1, h.2, h]
  · have : (e == e' && u == u') = false := by
      rcases not_and_or.mp h with h1 | h1 <;> simp [h1]
    simp [List.filter_cons, this, h]

theorem registerUser_success (db : SDB) (e u : Nat)
    (h : (registerUser db e u).1.success = true) :
    findAttendeeRows db e u = []
      ∧ registerUser db e u = (⟨true, "User registered successfully"⟩, insertAttendee db e u) := by
  unfold registerUser registerUserF at *
  simp only [reduceCtorEq, if_false] at h ⊢
  split at h
  · simp at h
  · rename_i hdup
    have hnil : findAttendeeRows db e u = [] :=
      List.length_eq_zero.mp (Nat.eq_zero_of_not_pos hdup)
    refine ⟨hnil, ?_⟩
    split at h
    · simp at h
    · split at h
      · simp at h
      · simp_all

theorem registerUser_preserves_capacityInvS (db : SDB) (e u : Nat)
    (hn : eventsNodupS db) (h : capacityInvS db = true) :
    capacityInvS (registerUser db e u).2 = true := by
  unfold registerUser registerUserF
  simp only [reduceCtorEq, if_false]
  split
  · exact h
  · split
    · exact h
    · rename_i hdup cap rest hcap
      split
      · exact h
      · rename_i hguard
        unfold capacityInvS at h ⊢
        rw [List.all_eq_true] at h ⊢
        intro ev hev
        have hev' : ev ∈ db.events := hev
        have hold := h ev hev'
        simp only [Bool.or_eq_true, beq_iff_eq, decide_eq_true_eq] at hold ⊢
        rcases hold with h0 | hle
        · exact Or.inl h0
        · by_cases hc0 : ev.capacity = 0
          · exact Or.inl hc0
          · refine Or.inr ?_
            rw [countAttendees_insert]
            by_cases hid : ev.id = e
            · have hone : findEventCapacity db e = [ev.capacity] :=
                hid ▸ findEventCapacity_eq hn hev'
              rw [hcap] at hone
              have hcapeq : cap = ev.capacity := by
                injection hone
              simp only [Bool.and_eq_true, decide_eq_true_eq, not_and, not_le,
                Bool.not_eq_true] at hguard
              have hpos : cap > 0 := hcapeq ▸ Nat.pos_of_ne_zero hc0
              have hlt : countAttendees db e < cap := hguard hpos
              have : countAttendees db ev.id < ev.capacity := by
                rw [hid]; exact hcapeq ▸ hlt
              simp [hid]
              omega
            · simp [hid]
              exact hle

theorem unregisterUser_preserves_capacityInvS (db : SDB) (e u : Nat)
    (h : capacityInvS db = true) :
    capacityInvS (unregisterUser db e u).2 = true := by
  unfold unregisterUser unregisterUserF deleteAttendeeRows
  simp only [reduceCtorEq, if_false]
  have key : capacityInvS
      { db with attendees := db.attendees.filter (fun r => !(r.eventId == e && r.userId == u)) }
      = true := by
    unfold capacityInvS at h ⊢
    rw [List.all_eq_true] at h ⊢
    intro ev hev
    have hold := h ev hev
    simp only [Bool.or_eq_true, beq_iff_eq, decide_eq_true_eq] at hold ⊢
    rcases hold with h0 | hle
    · exact Or.inl h0
    · exact Or.inr (le_trans (countAttendees_filter_le db _ ev.id) hle)
  split
  · exact key
  · exact key


theorem confirmedCount_insertR (db : RDB) (e u : Nat) (n : Option String) (e' : Nat) :
    confirmedCount (insertRAttendee db e u n) e'
      = confirmedCount db e' + (if e = e' then 1 else 0) := by
  unfold insertRAttendee
  rw [confirmedCount_append]
  simp

theorem registerForEvent_preserves_capacityInvR (db : RDB) (e u : Nat)
    (n : Option String) (q : Bool) (hn : eventsNodupR db) (h : capacityInvR db = true) :
    capacityInvR (registerForEvent db e u n q).2 = true := by
  have hkey : ∀ ev : REvent, findREvent db e = some ev →
      ¬(ev.maxAttendees != 0 && decide (confirmedCount db e ≥ ev.maxAttendees)) = true →
      capacityInvR (insertRAttendee db e u n) = true := by
    intro ev hev hguard
    simp only [Bool.and_eq_true, bne_iff_ne, ne_eq, decide_eq_true_eq, not_and,
      not_le] at hguard
    unfold capacityInvR at h ⊢
    rw [List.all_eq_true] at h ⊢
    intro ev' hev'
    have hev'' : ev' ∈ db.events := hev'
    have hold := h ev' hev''
    simp only [Bool.or_eq_true, beq_iff_eq, decide_eq_true_eq] at hold ⊢
    rcases hold with h0 | hle
    · exact Or.inl h0
    · by_cases hc0 : ev'.maxAttendees = 0
      · exact Or.inl hc0
      · refine Or.inr ?_
        rw [confirmedCount_insertR]
        by_cases hid : ev'.id = e
        · have hsame : findREvent db e = some ev' := hid ▸ findREvent_eq hn hev''
          have heq2 : ev = ev' := by
            rw [hev] at hsame
            injection hsame
          have hlt : confirmedCount db e < ev.maxAttendees :=
            hguard (fun hz => hc0 (heq2 ▸ hz))
          rw [if_pos hid.symm]
          have : confirmedCount db ev'.id < ev'.maxAttendees := by
            rw [hid]; exact heq2 ▸ hlt
          omega
        · rw [if_neg (fun hz => hid hz.symm)]
          simpa using hle
  unfold registerForEvent
  split
  · exact h
  · rename_i ev hev
    split
    · exact h
    · split
      · exact h
      · rename_i hpast hguard
        split
        · exact h
        · split
          · exact hkey ev hev hguard
          · exact hkey ev hev hguard

theorem deleteAttendance_preserves_capacityInvR (db : RDB) (i : Nat) (a : Actor)
    (h : capacityInvR db = true) :
    capacityInvR (deleteAttendance db i a).2 = true := by
  have hkey : capacityInvR
      { db with attendees := db.attendees.filter (fun r => !(r.id == i)) } = true := by
    unfold capacityInvR at h ⊢
    rw [List.all_eq_true] at h ⊢
    intro ev hev
    have hold := h ev hev
    simp only [Bool.or_eq_true, beq_iff_eq, decide_eq_true_eq] at hold ⊢
    rcases hold with h0 | hle
    · exact Or.inl h0
    · exact Or.inr (le_trans (confirmedCount_filter_le db _ ev.id) hle)
  unfold deleteAttendance
  split
  · exact h
  · split
    · exact h
    · split
      · exact h
      · exact hkey

/-! ## Claims -/

/-- C1 counterexample: the capacity invariant is not preserved by every
operation.  Starting from a reachable state (capacity 1; user 11
registers, cancels via `updateAttendanceStatus`, user 12 registers),
`checkInAttendee` flips the declined row back to confirmed with no
capacity check, leaving 2 confirmed rows for a capacity-1 event. -/
theorem c1_checkin_breaks_capacity_counterexample :
    (registerForEvent rdbEmpty 1 11 none true).1 = .created 0
    ∧ (updateAttendanceStatus (registerForEvent rdbEmpty 1 11 none true).2 0
        AStatus.declined none ⟨11, false⟩).1 = .ok 0
    ∧ (registerForEvent (updateAttendanceStatus (registerForEvent rdbEmpty 1 11 none true).2 0
        AStatus.declined none ⟨11, false⟩).2 1 12 none true).1 = .created 1
    ∧ capacityInvR (registerForEvent (updateAttendanceStatus
        (registerForEvent rdbEmpty 1 11 none true).2 0
        AStatus.declined none ⟨11, false⟩).2 1 12 none true).2 = true
    ∧ (checkInAttendee (registerForEvent (updateAttendanceStatus
        (registerForEvent rdbEmpty 1 11 none true).2 0
        AStatus.declined none ⟨11, false⟩).2 1 12 none true).2 0 ⟨0, true⟩).1 = .ok 0
    ∧ capacityInvR (checkInAttendee (registerForEvent (updateAttendanceStatus
        (registerForEvent rdbEmpty 1 11 none true).2 0
        AStatus.declined none ⟨11, false⟩).2 1 12 none true).2 0 ⟨0, true⟩).2 = false
    ∧ confirmedCount (checkInAttendee (registerForEvent (updateAttendanceStatus
        (registerForEvent rdbEmpty 1 11 none true).2 0
        AStatus.declined none ⟨11, false⟩).2 1 12 none true).2 0 ⟨0, true⟩).2 1 = 2 := by
  decide

/-- C1 (amended): the seat-count-versus-capacity invariant is preserved
by register and unregister in both variants (simple: `registerUser`,
`unregisterUser`; richer: `registerForEvent`, `deleteAttendance`), given
the primary key on event ids.  It is NOT preserved by `updateStatus` or
`checkIn`, which never consult capacity — see the counterexample. -/
theorem c1_capacity_preserved_by_register_unregister :
    (∀ db e u, eventsNodupS db → capacityInvS db = true →
       capacityInvS (registerUser db e u).2 = true)
    ∧ (∀ db e u, capacityInvS db = true →
       capacityInvS (unregisterUser db e u).2 = true)
    ∧ (∀ db e u n q, eventsNodupR db → capacityInvR db = true →
       capacityInvR (registerForEvent db e u n q).2 = true)
    ∧ (∀ db i a, capacityInvR db = true →
       capacityInvR (deleteAttendance db i a).2 = true) :=
  ⟨fun db e u hn h => registerUser_preserves_capacityInvS db e u hn h,
   fun db e u h => unregisterUser_preserves_capacityInvS db e u h,
   fun db e u n q hn h => registerForEvent_preserves_capacityInvR db e u n q hn h,
   fun db i a h => deleteAttendance_preserves_capacityInvR db i a h⟩

/-- Witness for C1: the preservation theorem applied to the concrete
capacity-1 store. -/
theorem c1_capacity_preserved_witness :
    capacityInvS (registerUser dbCap1 1 7).2 = true
    ∧ capacityInvR (registerForEvent rdbEmpty 1 11 none true).2 = true :=
  ⟨c1_capacity_preserved_by_register_unregister.1 dbCap1 1 7 (by decide) (by decide),
   c1_capacity_preserved_by_register_unregister.2.2.1 rdbEmpty 1 11 none true
     (by decide) (by decide)⟩

/-- C3: the four-step check-then-insert sequence of `registerUser` is
NOT atomic — there is no transaction, lock, or store-level capacity
constraint around the four queries.  Under the interleaving in which
both in-flight calls run their duplicate check, capacity fetch and
count query before either inserts, both calls observe count 0 below
capacity 1 and both insert: the event ends with 2 attendees against
capacity 1.  This evaluates the code at the failing interleaving. -/
theorem c3_toctou_interleaving_exceeds_capacity :
    (runSched 1 7 8 [false, false, false, true, true, true, false, true]
        (initThread, initThread, dbCap1)).1.result
      = some ⟨true, "User registered successfully"⟩
    ∧ (runSched 1 7 8 [false, false, false, true, true, true, false, true]
        (initThread, initThread, dbCap1)).2.1.result
      = some ⟨true, "User registered successfully"⟩
    ∧ countAttendees (runSched 1 7 8 [false, false, false, true, true, true, false, true]
        (initThread, initThread, dbCap1)).2.2 1 = 2
    ∧ findEventCapacity dbCap1 1 = [1]
    ∧ capacityInvS (runSched 1 7 8 [false, false, false, true, true, true, false, true]
        (initThread, initThread, dbCap1)).2.2 = false := by
  decide

theorem pairNodupS_insert {db : SDB} {e u : Nat}
    (h : pairNodupS db) (hnone : findAttendeeRows db e u = []) :
    pairNodupS (insertAttendee db e u) := by
  unfold pairNodupS insertAttendee at *
  simp only [List.map_append, List.map_cons, List.map_nil]
  rw [List.nodup_append]
  refine ⟨h, List.nodup_singleton _, ?_⟩
  intro p hp hq
  simp only [List.mem_singleton] at hq
  subst hq
  obtain ⟨r, hr, hpr⟩ := List.mem_map.mp hp
  have h1 : r.eventId = e := congrArg Prod.fst hpr
  have h2 : r.userId = u := congrArg Prod.snd hpr
  have hmem : r ∈ findAttendeeRows db e u := by
    unfold findAttendeeRows
    refine List.mem_filter.mpr ⟨hr, ?_⟩
    simp [h1, h2]
  rw [hnone] at hmem
  cases hmem

theorem pairNodupR_insert {db : RDB} {e u : Nat} {n : Option String}
    (h : pairNodupR db) (hnone : findPair db e u = none) :
    pairNodupR (insertRAttendee db e u n) := by
  unfold pairNodupR insertRAttendee at *
  simp only [List.map_append, List.map_cons, List.map_nil]
  rw [List.nodup_append]
  refine ⟨h, List.nodup_singleton _, ?_⟩
  intro p hp hq
  simp only [List.mem_singleton] at hq
  subst hq
  obtain ⟨r, hr, hpr⟩ := List.mem_map.mp hp
  have h1 : r.eventId = e := congrArg Prod.fst hpr
  have h2 : r.userId = u := congrArg Prod.snd hpr
  have := List.find?_eq_none.mp hnone r hr
  simp [findPair, h1, h2] at this

theorem registerUser_already (db : SDB) (e u : Nat)
    (h : isUserRegistered db e u = true) :
    registerUser db e u = (⟨false, "User already registered for this event"⟩, db) := by
  have h' : (findAttendeeRows db e u).length > 0 := by
    simpa [isUserRegistered] using h
  unfold registerUser registerUserF
  simp [h']

theorem registerUser_preserves_pairNodupS (db : SDB) (e u : Nat)
    (h : pairNodupS db) : pairNodupS (registerUser db e u).2 := by
  unfold registerUser registerUserF
  simp only [reduceCtorEq, if_false]
  split
  · exact h
  · rename_i hdup
    split
    · exact h
    · split
      · exact h
      · exact pairNodupS_insert h (List.length_eq_zero.mp (Nat.eq_zero_of_not_pos hdup))

theorem registerForEvent_preserves_pairNodupR (db : RDB) (e u : Nat)
    (n : Option String) (q : Bool)
    (h : pairNodupR db) : pairNodupR (registerForEvent db e u n q).2 := by
  unfold registerForEvent
  split
  · exact h
  · split
    · exact h
    · split
      · exact h
      · split
        · exact h
        · rename_i hpair
          split
          · exact pairNodupR_insert h hpair
          · exact pairNodupR_insert h hpair

theorem registerForEvent_pair_exists (db : RDB) (e u : Nat) (n : Option String) (q : Bool)
    (h1 : (findREvent db e).isSome) (h2 : (findPair db e u).isSome) :
    (∃ m, (registerForEvent db e u n q).1 = .fail (.validationErr m))
    ∧ (registerForEvent db e u n q).2 = db := by
  obtain ⟨ev, hev⟩ := Option.isSome_iff_exists.mp h1
  obtain ⟨att, hatt⟩ := Option.isSome_iff_exists.mp h2
  unfold registerForEvent
  simp only [hev]
  split
  · exact ⟨⟨_, rfl⟩, rfl⟩
  · split
    · exact ⟨⟨_, rfl⟩, rfl⟩
    · simp only [hatt]
      exact ⟨⟨_, rfl⟩, trivial⟩

/-- C2: at most one attendee row per (event, user) pair, in both
variants: a second register for an already-registered pair fails (simple
variant: the already-registered failure result, unchanged store; richer
variant: a `ValidationError`, unchanged store), and register preserves
pair uniqueness (it only inserts after finding no existing row, matching
the unique index / primary key on the pair). -/
theorem c2_pair_unique_second_register_fails :
    (∀ db e u, isUserRegistered db e u = true →
       registerUser db e u = (⟨false, "User already registered for this event"⟩, db))
    ∧ (∀ db e u, pairNodupS db → pairNodupS (registerUser db e u).2)
    ∧ (∀ db e u n q, (findREvent db e).isSome → (findPair db e u).isSome →
       (∃ m, (registerForEvent db e u n q).1 = .fail (.validationErr m))
       ∧ (registerForEvent db e u n q).2 = db)
    ∧ (∀ db e u n q, pairNodupR db → pairNodupR (registerForEvent db e u n q).2) :=
  ⟨fun db e u h => registerUser_already db e u h,
   fun db e u h => registerUser_preserves_pairNodupS db e u h,
   fun db e u n q h1 h2 => registerForEvent_pair_exists db e u n q h1 h2,
   fun db e u n q h => registerForEvent_preserves_pairNodupR db e u n q h⟩

/-- Witness for C2 at concrete stores: a second register of user 7 after
a successful one fails with the already-registered result, and pair
uniqueness holds after a richer-variant register. -/
theorem c2_witness :
    registerUser (registerUser dbCap1 1 7).2 1 7
      = (⟨false, "User already registered for this event"⟩, (registerUser dbCap1 1 7).2)
    ∧ pairNodupR (registerForEvent rdbEmpty 1 7 none true).2 :=
  ⟨c2_pair_unique_second_register_fails.1 (registerUser dbCap1 1 7).2 1 7 (by decide),
   c2_pair_unique_second_register_fails.2.2.2 rdbEmpty 1 7 none true (by decide)⟩

theorem registerForEvent_capacity_first (db : RDB) (e u : Nat) (n : Option String) (q : Bool)
    (ev : REvent) (hev : findREvent db e = some ev) (hpast : ¬ ev.startDate < db.now)
    (hc : ev.maxAttendees ≠ 0) (hfull : confirmedCount db e ≥ ev.maxAttendees) :
    (registerForEvent db e u n q).1 = .fail (.validationErr "Event is at full capacity") := by
  unfold registerForEvent
  simp only [hev]
  rw [if_neg hpast, if_pos]
  simp [hc, hfull]

/-- C4 counterexample: in the richer variant, for a user who is already
registered (confirmed) while the event is at capacity, register fails
with the capacity message, not the already-registered message — the
capacity check precedes the duplicate check, contradicting the claimed
order. -/
theorem c4_capacity_checked_before_duplicate_counterexample :
    (registerForEvent rdbFull 1 7 none true).1
      = .fail (.validationErr "Event is at full capacity")
    ∧ (registerForEvent rdbFull 1 7 none true).1
      ≠ .fail (.validationErr "You are already registered for this event")
    ∧ (findPair rdbFull 1 7).isSome = true := by
  decide

/-- C4 (amended): the richer variant checks, in order, event existence,
event-not-started, capacity, then already-registered — so at capacity
the capacity error wins even for an already-registered user; the simple
variant checks already-registered first (even before event existence),
so there the already-registered failure wins regardless of capacity. -/
theorem c4_precondition_order :
    (∀ db e u n q ev, findREvent db e = some ev → ¬ ev.startDate < db.now →
       ev.maxAttendees ≠ 0 → confirmedCount db e ≥ ev.maxAttendees →
       (registerForEvent db e u n q).1 = .fail (.validationErr "Event is at full capacity"))
    ∧ (∀ db e u, isUserRegistered db e u = true →
       (registerUser db e u).1 = ⟨false, "User already registered for this event"⟩) :=
  ⟨fun db e u n q ev hev hpast hc hfull =>
     registerForEvent_capacity_first db e u n q ev hev hpast hc hfull,
   fun db e u h => by rw [registerUser_already db e u h]⟩

/-- Witness for C4 at the concrete full store. -/
theorem c4_precondition_order_witness :
    (registerForEvent rdbFull 1 8 none true).1
      = .fail (.validationErr "Event is at full capacity")
    ∧ (registerUser (registerUser dbCap1 1 7).2 1 7).1
      = ⟨false, "User already registered for this event"⟩ :=
  ⟨c4_precondition_order.1 rdbFull 1 8 none true ⟨1, 99, 1, 10⟩ (by decide) (by decide)
     (by decide) (by decide),
   c4_precondition_order.2 (registerUser dbCap1 1 7).2 1 7 (by decide)⟩

theorem isUserRegistered_insert_ne (db : SDB) (e u e' u' : Nat) (h : u' ≠ u) :
    isUserRegistered (insertAttendee db e u) e' u' = isUserRegistered db e' u' := by
  unfold isUserRegistered
  rw [findAttendeeRows_insert, if_neg (fun hc => h hc.2.symm), List.append_nil]

theorem registerUser_cap0 (db : SDB) (e u : Nat) (l : List Nat)
    (hcap : findEventCapacity db e = 0 :: l) (hreg : isUserRegistered db e u = false) :
    registerUser db e u = (⟨true, "User registered successfully"⟩, insertAttendee db e u) := by
  have h0 : ¬ (findAttendeeRows db e u).length > 0 := by
    simpa [isUserRegistered] using hreg
  unfold registerUser registerUserF
  simp only [reduceCtorEq, if_false]
  rw [if_neg h0]
  simp only [hcap]
  simp

theorem registerForEvent_cap0 (db : RDB) (e u : Nat) (n : Option String) (q : Bool)
    (ev : REvent) (hev : findREvent db e = some ev) (hc : ev.maxAttendees = 0) :
    (registerForEvent db e u n q).1 ≠ .fail (.validationErr "Event is at full capacity") := by
  unfold registerForEvent
  simp only [hev]
  split
  · simp
  · split
    · rename_i hguard
      rw [hc] at hguard
      simp at hguard
    · split
      · simp
      · split
        · simp
        · simp

/-- C5: capacity 0 means unlimited.  In the simple variant the capacity
guard `capacity > 0 && count >= capacity` never fires for capacity 0, so
any unregistered user registers successfully, and three distinct users
can register in a row; in the richer variant `maxAttendees` 0 (or NULL)
is falsy, so the capacity error can never be produced. -/
theorem c5_zero_capacity_unlimited :
    (∀ db e u l, findEventCapacity db e = 0 :: l → isUserRegistered db e u = false →
       registerUser db e u = (⟨true, "User registered successfully"⟩, insertAttendee db e u))
    ∧ (∀ db e u1 u2 u3 l, findEventCapacity db e = 0 :: l →
       u2 ≠ u1 → u3 ≠ u1 → u3 ≠ u2 →
       isUserRegistered db e u1 = false → isUserRegistered db e u2 = false →
       isUserRegistered db e u3 = false →
       (registerUser db e u1).1.success = true
       ∧ (registerUser (registerUser db e u1).2 e u2).1.success = true
       ∧ (registerUser (registerUser (registerUser db e u1).2 e u2).2 e u3).1.success = true)
    ∧ (∀ db e u n q ev, findREvent db e = some ev → ev.maxAttendees = 0 →
       (registerForEvent db e u n q).1 ≠ .fail (.validationErr "Event is at full capacity")) := by
  refine ⟨fun db e u l hcap hreg => registerUser_cap0 db e u l hcap hreg, ?_,
    fun db e u n q ev hev hc => registerForEvent_cap0 db e u n q ev hev hc⟩
  intro db e u1 u2 u3 l hcap h21 h31 h32 hr1 hr2 hr3
  have e1 := registerUser_cap0 db e u1 l hcap hr1
  have hr2' : isUserRegistered (insertAttendee db e u1) e u2 = false := by
    rw [isUserRegistered_insert_ne _ _ _ _ _ h21]; exact hr2
  have e2 := registerUser_cap0 (insertAttendee db e u1) e u2 l hcap hr2'
  have hr3' : isUserRegistered (insertAttendee (insertAttendee db e u1) e u2) e u3 = false := by
    rw [isUserRegistered_insert_ne _ _ _ _ _ h32, isUserRegistered_insert_ne _ _ _ _ _ h31]
    exact hr3
  have e3 := registerUser_cap0 (insertAttendee (insertAttendee db e u1) e u2) e u3 l hcap hr3'
  refine ⟨?_, ?_, ?_⟩
  · rw [e1]
  · simp only [e1, e2]
  · simp only [e1, e2, e3]

/-- Witness for C5: three users register for the capacity-0 event. -/
theorem c5_zero_capacity_witness :
    (registerUser dbCap0 1 7).1.success = true
    ∧ (registerUser (registerUser dbCap0 1 7).2 1 8).1.success = true
    ∧ (registerUser (registerUser (registerUser dbCap0 1 7).2 1 8).2 1 9).1.success = true :=
  c5_zero_capacity_unlimited.2.1 dbCap0 1 7 8 9 [] (by decide) (by decide) (by decide)
    (by decide) (by decide) (by decide) (by decide)

theorem findAttendeeRows_after_delete (db : SDB) (e u : Nat) :
    findAttendeeRows (deleteAttendeeRows db e u).2 e u = [] := by
  unfold findAttendeeRows deleteAttendeeRows
  refine List.filter_eq_nil_iff.mpr ?_
  intro r hr
  have h2 := (List.mem_filter.mp hr).2
  intro h3
  simp [h3] at h2

theorem unregisterUser_state (db : SDB) (e u : Nat) :
    (unregisterUser db e u).2 = (deleteAttendeeRows db e u).2 := by
  unfold unregisterUser unregisterUserF
  simp only [reduceCtorEq, if_false]
  split <;> rfl

theorem unregisterUser_not_registered (db : SDB) (e u : Nat)
    (h : findAttendeeRows db e u = []) :
    unregisterUser db e u = (⟨false, "User not registered for this event"⟩, db) := by
  have hall := List.filter_eq_nil_iff.mp (h : db.attendees.filter
    (fun r => r.eventId == e && r.userId == u) = [])
  have hfix : db.attendees.filter (fun r => !(r.eventId == e && r.userId == u))
      = db.attendees := by
    refine List.filter_eq_self.mpr ?_
    intro r hr
    have h2 := hall r hr
    simp only [Bool.not_eq_true] at h2
    simp [h2]
  unfold unregisterUser unregisterUserF deleteAttendeeRows findAttendeeRows
  simp only [reduceCtorEq, if_false]
  rw [show db.attendees.filter (fun r => r.eventId == e && r.userId == u) = [] from h, hfix]
  simp

/-- C6 counterexample: the second unregister does fail, but with the
generic failure result that the event controller maps to HTTP 400 — not
the NotFound kind, which the error taxonomy maps to 404. -/
theorem c6_second_unregister_status_400_counterexample :
    (unregisterFromEventCtrl (registerUser dbCap1 1 7).2 1 7).1.status = 200
    ∧ (unregisterFromEventCtrl (unregisterFromEventCtrl (registerUser dbCap1 1 7).2 1 7).2 1 7).1
        = ⟨400, "User not registered for this event"⟩
    ∧ (unregisterFromEventCtrl (unregisterFromEventCtrl
        (registerUser dbCap1 1 7).2 1 7).2 1 7).1.status ≠ 404 := by
  decide

/-- C6 (amended): after a successful `unregisterUser`, the pair is gone
(`isUserRegistered` is false) and a second `unregisterUser` fails with
the not-registered failure result (mapped to HTTP 400 by the
controller, not to the 404 of the NotFound kind) rather than a silent
success, leaving the store unchanged. -/
theorem c6_unregister_then_query :
    ∀ db e u, (unregisterUser db e u).1.success = true →
      isUserRegistered (unregisterUser db e u).2 e u = false
      ∧ unregisterUser (unregisterUser db e u).2 e u
          = (⟨false, "User not registered for this event"⟩, (unregisterUser db e u).2)
      ∧ (unregisterFromEventCtrl (unregisterUser db e u).2 e u).1
          = ⟨400, "User not registered for this event"⟩ := by
  intro db e u _
  have hgone : findAttendeeRows (unregisterUser db e u).2 e u = [] := by
    rw [unregisterUser_state]
    exact findAttendeeRows_after_delete db e u
  have hsecond := unregisterUser_not_registered (unregisterUser db e u).2 e u hgone
  refine ⟨?_, hsecond, ?_⟩
  · unfold isUserRegistered
    rw [hgone]
    rfl
  · unfold unregisterFromEventCtrl
    rw [hsecond]
    simp

/-- Witness for C6 at the concrete store. -/
theorem c6_unregister_then_query_witness :
    isUserRegistered (unregisterUser (registerUser dbCap1 1 7).2 1 7).2 1 7 = false
    ∧ unregisterUser (unregisterUser (registerUser dbCap1 1 7).2 1 7).2 1 7
        = (⟨false, "User not registered for this event"⟩,
           (unregisterUser (registerUser dbCap1 1 7).2 1 7).2) :=
  ⟨(c6_unregister_then_query (registerUser dbCap1 1 7).2 1 7 (by decide)).1,
   (c6_unregister_then_query (registerUser dbCap1 1 7).2 1 7 (by decide)).2.1⟩

theorem count_id_join (attendees : List SRow) (e u : Nat) (us : List SUser) :
    ((us.flatMap (fun usr =>
        (attendees.filter (fun r => r.userId == usr.id && r.eventId == e)).map
          (fun r => AttendeeView.mk usr.id usr.displayName r.registeredAt))).map
        AttendeeView.id).count u
      = (us.map SUser.id).count u
          * (attendees.filter (fun r => r.eventId == e && r.userId == u)).length := by
  induction us with
  | nil => simp
  | cons usr t ih =>
    simp only [List.flatMap_cons, List.map_append, List.count_append, ih,
      List.map_cons, List.count_cons, List.map_map]
    have hrep : (attendees.filter (fun r => r.userId == usr.id && r.eventId == e)).map
        ((fun v => AttendeeView.id v) ∘ (fun r => AttendeeView.mk usr.id usr.displayName r.registeredAt))
        = List.replicate (attendees.filter
            (fun r => r.userId == usr.id && r.eventId == e)).length usr.id :=
      List.map_const' _ usr.id
    rw [hrep, List.count_replicate]
    by_cases hu : u = usr.id
    · subst hu
      have hcond : (usr.id == usr.id) = true := beq_self_eq_true usr.id
      rw [if_pos hcond, if_pos hcond]
      have hflip : attendees.filter (fun r => r.userId == usr.id && r.eventId == e)
          = attendees.filter (fun r => r.eventId == e && r.userId == usr.id) :=
        List.filter_congr (fun r _ => Bool.and_comm _ _)
      rw [hflip]
      ring
    · have hcond : ¬ ((usr.id == u) = true) := fun h => hu (beq_iff_eq.mp h).symm
      rw [if_neg hcond, if_neg hcond]
      ring

theorem count_id_getAttendees (db : SDB) (e u : Nat) :
    ((getAttendees db e).map AttendeeView.id).count u
      = (db.users.map SUser.id).count u * (findAttendeeRows db e u).length := by
  unfold getAttendees findAttendeeRows
  rw [((List.mergeSort_perm _ _).map AttendeeView.id).count_eq u]
  exact count_id_join db.attendees e u db.users

/-- C7: after a successful register the pair reads back as registered,
and — when the users table has exactly one record for the user — the
user appears exactly once in the `getAttendees` join. -/
theorem c7_register_round_trip :
    ∀ db e u, (registerUser db e u).1.success = true →
      (db.users.map SUser.id).count u = 1 →
      isUserRegistered (registerUser db e u).2 e u = true
      ∧ ((getAttendees (registerUser db e u).2 e).map AttendeeView.id).count u = 1 := by
  intro db e u hs hu
  obtain ⟨hnil, heq⟩ := registerUser_success db e u hs
  simp only [heq]
  have hrows : findAttendeeRows (insertAttendee db e u) e u = [⟨e, u, db.clock⟩] := by
    rw [findAttendeeRows_insert, hnil]
    simp
  constructor
  · unfold isUserRegistered
    rw [hrows]
    rfl
  · rw [count_id_getAttendees, hrows]
    simp only [List.length_singleton, Nat.mul_one]
    exact hu

/-- Witness for C7 at the concrete store. -/
theorem c7_register_round_trip_witness :
    isUserRegistered (registerUser dbCap1 1 7).2 1 7 = true
    ∧ ((getAttendees (registerUser dbCap1 1 7).2 1).map AttendeeView.id).count 7 = 1 :=
  c7_register_round_trip dbCap1 1 7 (by decide) (by decide)

/-- C8 counterexample: with the insert committed, a failing enqueue
still reaches the catch block — the caller receives an error response
even though the attendee row is in the store.  This refutes the claim
that enqueue failure never turns the result into an error. -/
theorem c8_enqueue_failure_errors_counterexample :
    (registerForEvent rdbEmpty 1 7 none false).1 = .fail (.internal "queueEmail failed")
    ∧ (registerForEvent rdbEmpty 1 7 none false).2.attendees
        = [⟨0, 7, 1, AStatus.confirmed, none, none⟩] := by
  decide

/-- C8 (amended): enqueue failure does not roll back the registration —
the store after a failing enqueue equals the store after a successful
one, the committed row included — but the failure does surface to the
caller as an error instead of the 201 success. -/
theorem c8_enqueue_failure_keeps_commit :
    ∀ db e u n i, (registerForEvent db e u n true).1 = .created i →
      (registerForEvent db e u n false).2 = (registerForEvent db e u n true).2
      ∧ (registerForEvent db e u n false).1 = .fail (.internal "queueEmail failed") := by
  intro db e u n i h
  unfold registerForEvent at h ⊢
  split at h
  · exact absurd h (by simp)
  · rename_i ev hev
    simp only [hev]
    split at h
    · exact absurd h (by simp)
    · rename_i hpast
      rw [if_neg hpast]
      split at h
      · exact absurd h (by simp)
      · rename_i hguard
        rw [if_neg hguard]
        split at h
        · exact absurd h (by simp)
        · rename_i hpair
          simp [hpast, hguard]

/-- Witness for C8 at the concrete store. -/
theorem c8_enqueue_failure_keeps_commit_witness :
    (registerForEvent rdbEmpty 1 7 none false).2 = (registerForEvent rdbEmpty 1 7 none true).2
    ∧ (registerForEvent rdbEmpty 1 7 none false).1 = .fail (.internal "queueEmail failed") :=
  c8_enqueue_failure_keeps_commit rdbEmpty 1 7 none 0 (by decide)

theorem deleteAttendeeRows_noop (db : SDB) (e u : Nat)
    (h : findAttendeeRows db e u = []) : (deleteAttendeeRows db e u).2 = db := by
  have hall := List.filter_eq_nil_iff.mp (h : db.attendees.filter
    (fun r => r.eventId == e && r.userId == u) = [])
  have hfix : db.attendees.filter (fun r => !(r.eventId == e && r.userId == u))
      = db.attendees := by
    refine List.filter_eq_self.mpr ?_
    intro r hr
    have h2 := hall r hr
    simp only [Bool.not_eq_true] at h2
    simp [h2]
  unfold deleteAttendeeRows
  rw [hfix]

/-- C9 counterexample: a store error during register or unregister is
swallowed by the catch block into the generic failure result — it does
not propagate to the caller. -/
theorem c9_store_error_swallowed_counterexample :
    registerUserF (some 0) dbCap1 1 7 = (⟨false, "Failed to register for event"⟩, dbCap1)
    ∧ unregisterUserF (some 0) (registerUser dbCap1 1 7).2 1 7
        = (⟨false, "Failed to unregister from event"⟩, (registerUser dbCap1 1 7).2) := by
  decide

/-- C9 (amended): a store error raised at any query of `registerUser` or
`unregisterUser` is caught and converted into the generic failure
result — never propagated — and any failing call leaves the attendee
table unchanged (no half-applied operation, each having a single write
statement). -/
theorem c9_store_error_generic_failure :
    (∀ db e u, registerUserF (some 0) db e u
        = (⟨false, "Failed to register for event"⟩, db))
    ∧ (∀ k db e u, (registerUserF (some k) db e u).1.success = false →
       (registerUserF (some k) db e u).2 = db)
    ∧ (∀ db e u, unregisterUserF (some 0) db e u
        = (⟨false, "Failed to unregister from event"⟩, db))
    ∧ (∀ k db e u, (unregisterUserF (some k) db e u).1.success = false →
       (unregisterUserF (some k) db e u).2 = db) := by
  refine ⟨fun db e u => by simp [registerUserF], ?_, fun db e u => by simp [unregisterUserF], ?_⟩
  · intro k db e u
    unfold registerUserF
    repeat' split
    all_goals first
      | exact fun _ => rfl
      | exact fun h => absurd h (by simp)
  · intro k db e u
    unfold unregisterUserF
    split
    · exact fun _ => rfl
    · split
      · rename_i hlen
        exact fun _ => deleteAttendeeRows_noop db e u (List.length_eq_zero.mp hlen)
      · exact fun h => absurd h (by simp)

/-- Witness for C9: the fault-free second component is unchanged on a
failing register (already-registered path under fault index 9). -/
theorem c9_store_error_generic_failure_witness :
    (registerUserF (some 9) (registerUser dbCap1 1 7).2 1 7).1.success = false
    ∧ (registerUserF (some 9) (registerUser dbCap1 1 7).2 1 7).2
        = (registerUser dbCap1 1 7).2 :=
  ⟨by decide,
   c9_store_error_generic_failure.2.1 9 (registerUser dbCap1 1 7).2 1 7 (by decide)⟩

/-- C10: every attendee row created by `registerForEvent` carries
status confirmed (the controller passes it explicitly, overriding the
model default pending), so a successful registration raises the
confirmed count — the very count register itself checks — by one. -/
theorem c10_register_creates_confirmed :
    ∀ db e u n i, (registerForEvent db e u n true).1 = .created i →
      (registerForEvent db e u n true).2.attendees
        = db.attendees ++ [⟨db.nextId, u, e, AStatus.confirmed, none, n⟩]
      ∧ confirmedCount (registerForEvent db e u n true).2 e
          = confirmedCount db e + 1 := by
  intro db e u n i h
  unfold registerForEvent at h ⊢
  split at h
  · exact absurd h (by simp)
  · rename_i ev hev
    simp only [hev]
    split at h
    · exact absurd h (by simp)
    · rename_i hpast
      rw [if_neg hpast]
      split at h
      · exact absurd h (by simp)
      · rename_i hguard
        rw [if_neg hguard]
        split at h
        · exact absurd h (by simp)
        · rename_i hpair
          refine ⟨by simp [insertRAttendee], ?_⟩
          show confirmedCount (insertRAttendee db e u n) e = confirmedCount db e + 1
          rw [confirmedCount_insertR]
          simp

/-- Witness for C10 at the concrete store. -/
theorem c10_register_creates_confirmed_witness :
    (registerForEvent rdbEmpty 1 7 none true).2.attendees
      = rdbEmpty.attendees ++ [⟨0, 7, 1, AStatus.confirmed, none, none⟩]
    ∧ confirmedCount (registerForEvent rdbEmpty 1 7 none true).2 1
        = confirmedCount rdbEmpty 1 + 1 :=
  c10_register_creates_confirmed rdbEmpty 1 7 none 0 (by decide)
